import Mathlib

/-!
Shallow embedding of the `keygen` Django app
(`keygen/models.py`, `keygen/views.py`, `keygen/urls.py`).

The app stores `Secret` rows (an auto-assigned integer id, a
creation timestamp set once at insertion, and a key string defaulted
to a randomly generated 50-character secret).  Three request handlers
operate on the store: `index` lists all rows ordered by `created`
descending, `generate` inserts one row synchronously or enqueues a
background job depending on the `bg` query parameter, and `delete`
removes every row.  The background job `generate_bg` sleeps for a
fixed simulated delay and then performs the same single insert.
-/

/-- A row of the `Secret` table (`keygen/models.py`): surrogate id,
creation timestamp (modelled as a `Nat` tick), and the key string. -/
structure Secret where
  id : Nat
  created : Nat
  key : String
  deriving Repr, DecidableEq

/-- The `Secret` table: the stored rows plus the database's next
auto-increment id. -/
structure Store where
  rows : List Secret
  nextId : Nat
  deriving Repr, DecidableEq

/-- The alphabet used by Django's secret-key generator
(`django.core.management.utils.get_random_secret_key`, the `default`
callable of `Secret.key`): lowercase letters, digits and punctuation. -/
def secretKeyChars : List Char :=
  "abcdefghijklmnopqrstuvwxyz0123456789!@#$%^&*(-_=+)".toList

/-- Modelled from the spec: the framework's secret-key generator
(`django.core.management.utils.get_random_secret_key`, referenced as the
field default in `keygen/models.py` but defined outside this repository)
returns `get_random_string(50, chars)`: 50 characters drawn from the fixed
alphabet `secretKeyChars` by a random source, modelled here as a stream
`pick` of indices. -/
def get_random_secret_key (pick : Nat → Nat) : String :=
  String.mk ((List.range 50).map fun i =>
    secretKeyChars.getD (pick i % secretKeyChars.length) 'a')

/-- Per-request environment: the database clock used for
`auto_now_add` and the random source consumed by the key default. -/
structure Env where
  now : Nat
  pick : Nat → Nat

/-- `Secret.objects.create()`: insert one fresh row whose `created`
field is the current time (`auto_now_add=True`) and whose `key` field
is the generated default. -/
def Secret.objectsCreate (env : Env) (s : Store) : Store :=
  { rows := { id := s.nextId, created := env.now,
              key := get_random_secret_key env.pick } :: s.rows,
    nextId := s.nextId + 1 }

/-- Insert a row into a list kept in descending `created` order
(auxiliary for the model `Meta.ordering = ['-created']`). -/
def insertByCreated (r : Secret) : List Secret → List Secret
  | [] => [r]
  | x :: xs =>
      if r.created ≤ x.created then x :: insertByCreated r xs
      else r :: x :: xs

/-- Sort rows by `created` descending. -/
def sortByCreatedDesc (l : List Secret) : List Secret :=
  l.foldr insertByCreated []

/-- `Secret.objects.all()` as observed through the model's
`Meta.ordering = ['-created']` (`keygen/models.py`): every stored row,
ordered by creation time descending. -/
def Secret.objectsAll (s : Store) : List Secret :=
  sortByCreatedDesc s.rows

/-- `Secret.objects.all().delete()`: remove every row. -/
def Secret.objectsDeleteAll (s : Store) : Store :=
  { s with rows := [] }

/-- The one kind of job this app enqueues: the decorated
`generate_bg` function, called through `.delay()`. -/
inductive Job where
  | generateBgJob
  deriving Repr, DecidableEq

/-- An HTTP request: its GET query parameters, in order. -/
structure Request where
  GET : List (String × String)
  deriving Repr, DecidableEq

/-- `request.GET.get(k)`: the last value supplied for key `k`, or
`none` when the parameter is absent (Django `QueryDict` keeps every
value and returns the last). -/
def QueryDict.get (params : List (String × String)) (k : String) : Option String :=
  (params.filter fun p => p.1 = k).getLast?.map Prod.snd

/-- Python truthiness of `request.GET.get('bg')`: `None` and the
empty string are falsy, any non-empty string is truthy. -/
def pyTruthy : Option String → Bool
  | none => false
  | some s => !s.isEmpty

/-- What a handler returns: a redirect to a named route, or a
rendered template with its `secrets` context. -/
inductive Response where
  | redirect (name : String)
  | render (template : String) (secrets : List Secret)
  deriving Repr, DecidableEq

/-- The observable state a handler can touch: the database store,
the external job queue, and the messages framework. -/
structure World where
  store : Store
  queue : List Job
  msgs : List (String × String)
  deriving Repr, DecidableEq

/-- `messages.success(request, text)`. -/
def addSuccess (w : World) (text : String) : World :=
  { w with msgs := w.msgs ++ [("success", text)] }

/-- The background job body `generate_bg` (`keygen/views.py`):
`time.sleep(2)` simulates an expensive operation and has no effect on
the store; then `Secret.objects.create()` inserts one row.  `env` is
the environment at the later time the worker runs the job. -/
def generate_bg (env : Env) (s : Store) : Store :=
  Secret.objectsCreate env s

/-- The `index` view (`keygen/views.py`): render
`keygen/index.html` with `secrets = Secret.objects.all()`; the store,
queue and messages are untouched. -/
def index (_req : Request) (w : World) : World × Response :=
  (w, Response.render "keygen/index.html" (Secret.objectsAll w.store))

/-- The `generate` view (`keygen/views.py`): if `request.GET.get('bg')`
is truthy, enqueue `generate_bg` and post the background notice;
otherwise insert one row synchronously and post the success notice.
Either way redirect to the route named `home`. -/
def generate (req : Request) (env : Env) (w : World) : World × Response :=
  if pyTruthy (QueryDict.get req.GET "bg") then
    (addSuccess { w with queue := w.queue ++ [Job.generateBgJob] }
      "Generating new key in background. Refresh page after two seconds to see generated key.",
     Response.redirect "home")
  else
    (addSuccess { w with store := Secret.objectsCreate env w.store }
      "Generated new key.",
     Response.redirect "home")

/-- The `delete` view (`keygen/views.py`): remove every row, post the
notice, redirect to `home`. -/
def delete (_req : Request) (w : World) : World × Response :=
  (addSuccess { w with store := Secret.objectsDeleteAll w.store }
    "Deleted all keys.",
   Response.redirect "home")

/-- A named URL pattern (`keygen/urls.py`). -/
structure UrlPattern where
  route : String
  view : String
  name : String
  deriving Repr, DecidableEq

/-- `urlpatterns` (`keygen/urls.py`): the three routes of the app. -/
def urlpatterns : List UrlPattern :=
  [ { route := "", view := "index", name := "home" },
    { route := "generate", view := "generate", name := "generate" },
    { route := "delete", view := "delete", name := "delete" } ]

/-- URL reversal as used by `redirect('home')`: the route string of
the first pattern with the given name. -/
def reverseUrl (name : String) : Option String :=
  ((urlpatterns.find? fun p => p.name = name).map fun p => p.route)

/-- One operation of the program, as seen by the store: a request to
one of the three views, or the worker running a dequeued job. -/
inductive Op where
  | opIndex (req : Request)
  | opGenerate (req : Request) (env : Env)
  | opRunJob (env : Env)
  | opDelete (req : Request)

/-- The effect of one operation on the world. -/
def step : Op → World → World
  | .opIndex req, w => (index req w).1
  | .opGenerate req env, w => (generate req env w).1
  | .opRunJob env, w => { w with store := generate_bg env w.store }
  | .opDelete req, w => (delete req w).1

/-- A failure of an underlying service, as seen by a handler. -/
inductive Failure where
  | dbError (msg : String)
  | queueError (msg : String)
  deriving Repr, DecidableEq

/-- Which underlying operations fail during a request (none of the
handlers installs any try/except, so these are the only error
sources). -/
structure FaultEnv where
  dbFail : Option Failure
  queueFail : Option Failure
  deriving Repr, DecidableEq

/-- `Secret.objects.create()` against a database that may raise. -/
def objectsCreateE (fail : Option Failure) (env : Env) (s : Store) :
    Except Failure Store :=
  match fail with
  | some e => .error e
  | none => .ok (Secret.objectsCreate env s)

/-- Evaluating `Secret.objects.all()` against a database that may raise. -/
def objectsAllE (fail : Option Failure) (s : Store) :
    Except Failure (List Secret) :=
  match fail with
  | some e => .error e
  | none => .ok (Secret.objectsAll s)

/-- `Secret.objects.all().delete()` against a database that may raise. -/
def objectsDeleteAllE (fail : Option Failure) (s : Store) :
    Except Failure Store :=
  match fail with
  | some e => .error e
  | none => .ok (Secret.objectsDeleteAll s)

/-- `generate_bg.delay()` against a queue that may raise. -/
def enqueueE (fail : Option Failure) (q : List Job) :
    Except Failure (List Job) :=
  match fail with
  | some e => .error e
  | none => .ok (q ++ [Job.generateBgJob])

/-- The `index` view over fallible services: the handler body has no
try/except, so a raise propagates and nothing further happens. -/
def indexE (fe : FaultEnv) (_req : Request) (w : World) :
    Except Failure (World × Response) := do
  let secrets ← objectsAllE fe.dbFail w.store
  pure (w, Response.render "keygen/index.html" secrets)

/-- The `generate` view over fallible services. -/
def generateE (fe : FaultEnv) (req : Request) (env : Env) (w : World) :
    Except Failure (World × Response) :=
  if pyTruthy (QueryDict.get req.GET "bg") then do
    let q ← enqueueE fe.queueFail w.queue
    pure (addSuccess { w with queue := q }
      "Generating new key in background. Refresh page after two seconds to see generated key.",
      Response.redirect "home")
  else do
    let s ← objectsCreateE fe.dbFail env w.store
    pure (addSuccess { w with store := s } "Generated new key.",
      Response.redirect "home")

/-- The `delete` view over fallible services. -/
def deleteE (fe : FaultEnv) (_req : Request) (w : World) :
    Except Failure (World × Response) := do
  let s ← objectsDeleteAllE fe.dbFail w.store
  pure (addSuccess { w with store := s } "Deleted all keys.",
    Response.redirect "home")

/-! Helper lemmas. -/

/-- The generated default key has exactly 50 characters, whatever the
random source supplies. -/
theorem get_random_secret_key_length (pick : Nat → Nat) :
    (get_random_secret_key pick).length = 50 := by
  simp [get_random_secret_key, String.length]

/-- The generated default key is never the empty string. -/
theorem get_random_secret_key_ne_empty (pick : Nat → Nat) :
    get_random_secret_key pick ≠ "" := by
  intro h
  have h2 := congrArg String.length h
  rw [get_random_secret_key_length] at h2
  simp at h2

/-- Descending-by-`created` order on a list of rows. -/
def SortedDesc (l : List Secret) : Prop :=
  l.Pairwise fun a b => b.created ≤ a.created

/-- `insertByCreated` produces a permutation of consing the row on. -/
theorem insertByCreated_perm (r : Secret) (l : List Secret) :
    List.Perm (insertByCreated r l) (r :: l) := by
  induction l with
  | nil => exact List.Perm.refl _
  | cons x xs ih =>
    simp only [insertByCreated]
    split
    · exact (List.Perm.cons x ih).trans (List.Perm.swap r x xs)
    · exact List.Perm.refl _

/-- `insertByCreated` preserves descending order. -/
theorem insertByCreated_sorted (r : Secret) (l : List Secret)
    (h : SortedDesc l) : SortedDesc (insertByCreated r l) := by
  induction l with
  | nil => simp [insertByCreated, SortedDesc]
  | cons x xs ih =>
    rcases List.pairwise_cons.mp h with ⟨hx, hxs⟩
    simp only [insertByCreated]
    split
    case isTrue hle =>
      refine List.pairwise_cons.mpr ⟨?_, ih hxs⟩
      intro b hb
      rcases List.mem_cons.mp ((insertByCreated_perm r xs).mem_iff.mp hb) with hb | hb
      · exact hb ▸ hle
      · exact hx b hb
    case isFalse hgt =>
      refine List.pairwise_cons.mpr ⟨?_, h⟩
      intro b hb
      rcases List.mem_cons.mp hb with hb | hb
      · exact hb ▸ le_of_not_le hgt
      · exact le_trans (hx b hb) (le_of_not_le hgt)

/-- The sorted view is a permutation of the stored rows. -/
theorem sortByCreatedDesc_perm (l : List Secret) :
    List.Perm (sortByCreatedDesc l) l := by
  induction l with
  | nil => exact List.Perm.refl _
  | cons x xs ih =>
    exact (insertByCreated_perm x (sortByCreatedDesc xs)).trans (List.Perm.cons x ih)

/-- The sorted view is in descending `created` order. -/
theorem sortByCreatedDesc_sorted (l : List Secret) :
    SortedDesc (sortByCreatedDesc l) := by
  induction l with
  | nil => exact List.Pairwise.nil
  | cons x xs ih => exact insertByCreated_sorted x (sortByCreatedDesc xs) ih

/-- Python truthiness of the `bg` parameter, characterised. -/
theorem pyTruthy_iff (o : Option String) :
    pyTruthy o = true ↔ ∃ v, o = some v ∧ v ≠ "" := by
  cases o with
  | none => simp [pyTruthy]
  | some s =>
    constructor
    · intro h
      refine ⟨s, rfl, fun hs => ?_⟩
      rw [hs] at h
      exact absurd h (by decide)
    · rintro ⟨v, hv, hne⟩
      have hvs : v = s := (Option.some.injEq s v).mp hv |>.symm
      subst hvs
      simp only [pyTruthy, Bool.not_eq_true']
      cases hE : v.isEmpty
      · rfl
      · exact absurd ((String.isEmpty_iff v).mp hE) hne

/-! Concrete inputs for witnesses. -/

/-- A request with no query parameters. -/
def req0 : Request := { GET := [] }

/-- A request selecting background mode. -/
def reqBg : Request := { GET := [("bg", "1")] }

/-- A fixed environment: clock at 0, random source constantly 0. -/
def env0 : Env := { now := 0, pick := fun _ => 0 }

/-- The empty world: empty store, empty queue, no messages. -/
def w0 : World := { store := { rows := [], nextId := 0 }, queue := [], msgs := [] }

/-! Claim theorems. -/

/-- C1: with the `bg` parameter falsy, the `generate` handler inserts
exactly one new `Secret` row — the count afterwards is the count
before plus one — and the new row's key is a non-empty string of at
most 50 characters. -/
theorem generate_sync_inserts_one (req : Request) (env : Env) (w : World)
    (h : pyTruthy (QueryDict.get req.GET "bg") = false) :
    (generate req env w).1.store.rows.length = w.store.rows.length + 1 ∧
    ∃ r, (generate req env w).1.store.rows = r :: w.store.rows ∧
      r.key ≠ "" ∧ r.key.length ≤ 50 := by
  have hg : (generate req env w).1.store = Secret.objectsCreate env w.store := by
    simp [generate, h, addSuccess]
  rw [hg]
  exact ⟨rfl, _, rfl, get_random_secret_key_ne_empty env.pick,
    le_of_eq (get_random_secret_key_length env.pick)⟩

/-- Witness for C1 at the empty world and a parameterless request. -/
theorem generate_sync_inserts_one_witness :
    pyTruthy (QueryDict.get req0.GET "bg") = false ∧
    ((generate req0 env0 w0).1.store.rows.length = w0.store.rows.length + 1 ∧
     ∃ r, (generate req0 env0 w0).1.store.rows = r :: w0.store.rows ∧
       r.key ≠ "" ∧ r.key.length ≤ 50) :=
  ⟨by decide, generate_sync_inserts_one req0 env0 w0 (by decide)⟩

/-- C2: run at the same environment, the background job `generate_bg`
has exactly the same effect on the store as the synchronous branch of
`generate`: one fresh row is inserted and nothing else changes. -/
theorem generate_bg_refines_sync (req : Request) (env : Env) (w : World)
    (h : pyTruthy (QueryDict.get req.GET "bg") = false) :
    generate_bg env w.store = (generate req env w).1.store ∧
    ∃ r, (generate_bg env w.store).rows = r :: w.store.rows ∧
      (generate_bg env w.store).nextId = w.store.nextId + 1 := by
  have hg : (generate req env w).1.store = Secret.objectsCreate env w.store := by
    simp [generate, h, addSuccess]
  exact ⟨hg.symm, _, rfl, rfl⟩

/-- Witness for C2 at the empty world and a parameterless request. -/
theorem generate_bg_refines_sync_witness :
    pyTruthy (QueryDict.get req0.GET "bg") = false ∧
    (generate_bg env0 w0.store = (generate req0 env0 w0).1.store ∧
     ∃ r, (generate_bg env0 w0.store).rows = r :: w0.store.rows ∧
       (generate_bg env0 w0.store).nextId = w0.store.nextId + 1) :=
  ⟨by decide, generate_bg_refines_sync req0 env0 w0 (by decide)⟩

/-- C3: the `delete` handler unconditionally removes every row —
afterwards the stored count is zero — posts the confirmation notice,
and redirects to `home`. -/
theorem delete_removes_all (req : Request) (w : World) :
    (delete req w).1.store.rows = [] ∧
    (delete req w).1.store.rows.length = 0 ∧
    (delete req w).1.msgs = w.msgs ++ [("success", "Deleted all keys.")] ∧
    (delete req w).2 = Response.redirect "home" := by
  simp [delete, Secret.objectsDeleteAll, addSuccess]

/-- C4: the `index` view renders every stored record (a permutation
of the store's rows) ordered by `created` descending, changes
nothing, and renders the empty store as the empty list. -/
theorem index_lists_all_sorted (req : Request) (w : World) :
    (index req w).2 = Response.render "keygen/index.html" (Secret.objectsAll w.store) ∧
    List.Perm (Secret.objectsAll w.store) w.store.rows ∧
    SortedDesc (Secret.objectsAll w.store) ∧
    (w.store.rows = [] → Secret.objectsAll w.store = []) ∧
    (index req w).1 = w :=
  ⟨rfl, sortByCreatedDesc_perm w.store.rows, sortByCreatedDesc_sorted w.store.rows,
   fun h => by simp [Secret.objectsAll, h, sortByCreatedDesc], rfl⟩

/-- Witness for C4: the empty-store implication discharged at `w0`. -/
theorem index_lists_all_sorted_witness :
    w0.store.rows = [] ∧ Secret.objectsAll w0.store = [] :=
  ⟨rfl, (index_lists_all_sorted req0 w0).2.2.2.1 rfl⟩

/-- C5: no operation of the program updates an existing `Secret` row:
every step leaves the stored rows unchanged, prepends one freshly
inserted row, or removes all rows in bulk, so the `id`, `created` and
`key` fields of a surviving row are exactly what was inserted. -/
theorem secret_rows_never_updated (op : Op) (w : World) :
    (step op w).store.rows = w.store.rows ∨
    (∃ r, (step op w).store.rows = r :: w.store.rows) ∨
    (step op w).store.rows = [] := by
  cases op with
  | opIndex req => exact Or.inl rfl
  | opGenerate req env =>
    by_cases h : pyTruthy (QueryDict.get req.GET "bg") = true
    · exact Or.inl (by simp [step, generate, h, addSuccess])
    · refine Or.inr (Or.inl
        ⟨Secret.mk w.store.nextId env.now (get_random_secret_key env.pick), ?_⟩)
      simp [step, generate, h, addSuccess, Secret.objectsCreate]
  | opRunJob env => exact Or.inr (Or.inl ⟨_, rfl⟩)
  | opDelete req => exact Or.inr (Or.inr rfl)

/-- C6: in background mode, the `generate` handler leaves the store
unchanged — it only enqueues one `generate_bg` job, posts the static
notice and redirects — and the single insert happens only when the
worker later runs the job. -/
theorem generate_bg_mode_defers_insert (req : Request) (env : Env) (w : World)
    (h : pyTruthy (QueryDict.get req.GET "bg") = true) :
    (generate req env w).1.store = w.store ∧
    (generate req env w).1.queue = w.queue ++ [Job.generateBgJob] ∧
    (generate req env w).1.msgs = w.msgs ++
      [("success", "Generating new key in background. Refresh page after two seconds to see generated key.")] ∧
    (generate req env w).2 = Response.redirect "home" ∧
    ∀ env2, (generate_bg env2 (generate req env w).1.store).rows.length =
      w.store.rows.length + 1 := by
  simp [generate, h, addSuccess, generate_bg, Secret.objectsCreate]

/-- Witness for C6 at the empty world and a request with `bg=1`. -/
theorem generate_bg_mode_defers_insert_witness :
    pyTruthy (QueryDict.get reqBg.GET "bg") = true ∧
    ((generate reqBg env0 w0).1.store = w0.store ∧
     (generate reqBg env0 w0).1.queue = w0.queue ++ [Job.generateBgJob] ∧
     (generate reqBg env0 w0).1.msgs = w0.msgs ++
       [("success", "Generating new key in background. Refresh page after two seconds to see generated key.")] ∧
     (generate reqBg env0 w0).2 = Response.redirect "home" ∧
     ∀ env2, (generate_bg env2 (generate reqBg env0 w0).1.store).rows.length =
       w0.store.rows.length + 1) :=
  ⟨by decide, generate_bg_mode_defers_insert reqBg env0 w0 (by decide)⟩

/-- C7: no handler catches, classifies or retries failures: when the
underlying database or queue operation raises, `index`, `generate`
and `delete` each propagate that very error and produce no message
and no redirect of their own. -/
theorem handlers_propagate_failures (e : Failure) (fe : FaultEnv) (env : Env)
    (w : World) :
    (fe.dbFail = some e → ∀ req, indexE fe req w = Except.error e) ∧
    (fe.dbFail = some e → ∀ req, pyTruthy (QueryDict.get req.GET "bg") = false →
      generateE fe req env w = Except.error e) ∧
    (fe.queueFail = some e → ∀ req, pyTruthy (QueryDict.get req.GET "bg") = true →
      generateE fe req env w = Except.error e) ∧
    (fe.dbFail = some e → ∀ req, deleteE fe req w = Except.error e) := by
  refine ⟨?_, ?_, ?_, ?_⟩
  · intro hdb req
    simp [indexE, objectsAllE, hdb, Bind.bind, Except.bind]
  · intro hdb req hbg
    simp [generateE, hbg, objectsCreateE, hdb, Bind.bind, Except.bind]
  · intro hq req hbg
    simp [generateE, hbg, enqueueE, hq, Bind.bind, Except.bind]
  · intro hdb req
    simp [deleteE, objectsDeleteAllE, hdb, Bind.bind, Except.bind]

/-- Witness for C7: each handler run against a failing service at
concrete inputs yields exactly that error. -/
theorem handlers_propagate_failures_witness :
    indexE (FaultEnv.mk (some (Failure.dbError "db down")) none) req0 w0 =
      Except.error (Failure.dbError "db down") ∧
    generateE (FaultEnv.mk (some (Failure.dbError "db down")) none) req0 env0 w0 =
      Except.error (Failure.dbError "db down") ∧
    generateE (FaultEnv.mk none (some (Failure.queueError "queue down"))) reqBg env0 w0 =
      Except.error (Failure.queueError "queue down") ∧
    deleteE (FaultEnv.mk (some (Failure.dbError "db down")) none) req0 w0 =
      Except.error (Failure.dbError "db down") :=
  ⟨(handlers_propagate_failures (Failure.dbError "db down")
      (FaultEnv.mk (some (Failure.dbError "db down")) none) env0 w0).1 rfl req0,
   (handlers_propagate_failures (Failure.dbError "db down")
      (FaultEnv.mk (some (Failure.dbError "db down")) none) env0 w0).2.1 rfl req0
      (by decide),
   (handlers_propagate_failures (Failure.queueError "queue down")
      (FaultEnv.mk none (some (Failure.queueError "queue down"))) env0 w0).2.2.1 rfl
      reqBg (by decide),
   (handlers_propagate_failures (Failure.dbError "db down")
      (FaultEnv.mk (some (Failure.dbError "db down")) none) env0 w0).2.2.2 rfl req0⟩

/-- C8: the `generate` handler takes the background branch — observed
as the queue growing while the store stays put — if and only if the
`bg` query parameter is present with a non-empty value; in both
branches it posts one notice and redirects to `home`, the name of the
root route served by the `index` view. -/
theorem generate_branch_selection (req : Request) (env : Env) (w : World) :
    ((generate req env w).1.queue ≠ w.queue ↔
      ∃ v, QueryDict.get req.GET "bg" = some v ∧ v ≠ "") ∧
    ((generate req env w).1.store ≠ w.store ↔
      ¬∃ v, QueryDict.get req.GET "bg" = some v ∧ v ≠ "") ∧
    (generate req env w).2 = Response.redirect "home" ∧
    (generate req env w).1.msgs.length = w.msgs.length + 1 ∧
    reverseUrl "home" = some "" ∧
    ((urlpatterns.find? fun p => p.route = "").map fun p => p.view) = some "index" := by
  have hresp : (generate req env w).2 = Response.redirect "home" := by
    by_cases hbg : pyTruthy (QueryDict.get req.GET "bg") = true
    · simp [generate, hbg]
    · simp [generate, hbg]
  have hmsgs : (generate req env w).1.msgs.length = w.msgs.length + 1 := by
    by_cases hbg : pyTruthy (QueryDict.get req.GET "bg") = true
    · simp [generate, hbg, addSuccess]
    · simp [generate, hbg, addSuccess]
  cases hbg : pyTruthy (QueryDict.get req.GET "bg") with
  | false =>
    have hnex : ¬∃ v, QueryDict.get req.GET "bg" = some v ∧ v ≠ "" := by
      rw [← pyTruthy_iff]
      simp [hbg]
    have hq : (generate req env w).1.queue = w.queue := by
      simp [generate, hbg, addSuccess]
    have hs : (generate req env w).1.store = Secret.objectsCreate env w.store := by
      simp [generate, hbg, addSuccess]
    refine ⟨⟨fun hne => absurd hq hne, fun hex => absurd hex hnex⟩,
            ⟨fun _ => hnex, fun _ => ?_⟩, hresp, hmsgs, rfl, rfl⟩
    rw [hs]
    intro heq
    have hlen := congrArg (fun st => st.rows.length) heq
    simp [Secret.objectsCreate] at hlen
  | true =>
    have hex : ∃ v, QueryDict.get req.GET "bg" = some v ∧ v ≠ "" :=
      (pyTruthy_iff (QueryDict.get req.GET "bg")).mp hbg
    have hq : (generate req env w).1.queue = w.queue ++ [Job.generateBgJob] := by
      simp [generate, hbg, addSuccess]
    have hs : (generate req env w).1.store = w.store := by
      simp [generate, hbg, addSuccess]
    refine ⟨⟨fun _ => hex, fun _ => ?_⟩,
            ⟨fun hne => absurd hs hne, fun hnex => absurd hex hnex⟩,
            hresp, hmsgs, rfl, rfl⟩
    rw [hq]
    intro heq
    have hlen := congrArg List.length heq
    simp at hlen

/-- C9: the defaulted key is always a string of exactly 50 characters
— the framework generator's length, meeting the 50-character field
limit with equality — and is stored verbatim on the inserted row. -/
theorem default_key_always_length_50 (pick : Nat → Nat) (env : Env) (s : Store) :
    (get_random_secret_key pick).length = 50 ∧
    get_random_secret_key pick ≠ "" ∧
    ∃ r, (Secret.objectsCreate env s).rows = r :: s.rows ∧
      r.key = get_random_secret_key env.pick ∧ r.key.length = 50 :=
  ⟨get_random_secret_key_length pick, get_random_secret_key_ne_empty pick,
   _, rfl, rfl, get_random_secret_key_length env.pick⟩

/-- C10: deleting all keys is idempotent — a second `delete` leaves
the store exactly as the first did, namely empty — and `delete`
succeeds on every store, the already-empty store included. -/
theorem delete_idempotent (req req2 : Request) (w : World) :
    (delete req2 (delete req w).1).1.store = (delete req w).1.store ∧
    (delete req w).1.store.rows = [] ∧
    deleteE (FaultEnv.mk none none) req w = Except.ok (delete req w) := by
  exact ⟨rfl, rfl, rfl⟩
